import Mathlib

/-!
# WinSpy: remote window information and style lookup

A shallow embedding of `src/GetRemoteWindowInfo.c` and of the style test of
`src/WinSpy.h`.

Conventions of the embedding.

* Handles, pointers, `DWORD`s and `BOOL`s are natural numbers holding the bit
  pattern of the C value; a `BOOL` is true when it is not `0`, a pointer is
  `NULL` when it is `0`.
* A character buffer (`TCHAR *`) is the map from an index to the character
  stored there. Index `i` of a buffer below its capacity is element `i` of
  the array; an index at or above the capacity stands for the memory that
  follows the array, so that a write outside an array is visible.
* The operating system is a record of functions: `Env` holds what the calling
  process can ask (module lookup, class queries, the addresses of the
  `user32.dll` entry points, the injection primitive); `Process` holds what
  happens in the target process when the payload calls through one of the
  function pointers of the transfer record.
-/

namespace WinSpy

/-! ## `WinSpy.h`: extended style table -/

/-- The record `StyleLookupEx` of `WinSpy.h`. -/
structure StyleLookupEx where
  name : String
  value : Nat
  extraMask : Nat
  dependencyValue : Nat
  dependencyExtraMask : Nat
deriving DecidableEq, Repr

/-- The function `StyleApplicableAndPresent` of `WinSpy.h`. -/
def StyleApplicableAndPresent (value : Nat) (pStyle : StyleLookupEx) : Bool :=
  if ((pStyle.dependencyValue ||| pStyle.dependencyExtraMask) &&& value)
      != pStyle.dependencyValue then
    false
  else
    ((pStyle.value ||| pStyle.extraMask) &&& value) == pStyle.value

/-- A combination style as the comment of `WinSpy.h` defines it (and as
`STYLE_COMBINATION_MASK` lays it out, with no dependency): its value is the
`|` of the contained values, its mask the `|` of the contained masks. -/
def combinationStyle (name : String) (s1 s2 : StyleLookupEx) : StyleLookupEx :=
  { name := name
    value := s1.value ||| s2.value
    extraMask := s1.extraMask ||| s2.extraMask
    dependencyValue := 0
    dependencyExtraMask := 0 }

/-! ## `GetRemoteWindowInfo.c`: data -/

/-- A character buffer: the character at each index. -/
abbrev Buffer := Nat → Nat

/-- The assignment `buf[i] = v`. -/
def setAt (buf : Buffer) (i v : Nat) : Buffer :=
  fun j => if j = i then v else buf j

/-- A buffer after `ZeroMemory`. -/
def zeroBuffer : Buffer := fun _ => 0

/-- The Windows record `WNDCLASSEX`. -/
structure WNDCLASSEX where
  cbSize : Nat
  style : Nat
  lpfnWndProc : Nat
  cbClsExtra : Nat
  cbWndExtra : Nat
  hInstance : Nat
  hIcon : Nat
  hCursor : Nat
  hbrBackground : Nat
  lpszMenuName : Nat
  lpszClassName : Nat
  hIconSm : Nat
deriving DecidableEq, Repr

/-- A `WNDCLASSEX` after `ZeroMemory`. -/
def zeroWNDCLASSEX : WNDCLASSEX :=
  { cbSize := 0, style := 0, lpfnWndProc := 0, cbClsExtra := 0, cbWndExtra := 0,
    hInstance := 0, hIcon := 0, hCursor := 0, hbrBackground := 0,
    lpszMenuName := 0, lpszClassName := 0, hIconSm := 0 }

/-- The transfer record `INJDATA`. -/
structure INJDATA where
  fnGetClassInfoEx : Nat
  fnGetWindowLongPtr : Nat
  fnSendMessageTimeout : Nat
  hwnd : Nat
  atom : Nat
  hInst : Nat
  wcOutput : WNDCLASSEX
  wndproc : Nat
  szText : Buffer
  nTextSize : Nat

/-- The Windows record `MODULEINFO`. -/
structure MODULEINFO where
  lpBaseOfDll : Nat
  SizeOfImage : Nat
  EntryPoint : Nat
deriving DecidableEq, Repr

/-- Index `GWLP_WNDPROC`. -/
def GWLP_WNDPROC : Int := -4
/-- Index `GCW_ATOM`. -/
def GCW_ATOM : Int := -32
/-- Index `GCLP_HMODULE`. -/
def GCLP_HMODULE : Int := -16
/-- Message `WM_GETTEXT`. -/
def WM_GETTEXT : Nat := 0x000D
/-- Flag `SMTO_ABORTIFHUNG`. -/
def SMTO_ABORTIFHUNG : Nat := 0x0002
/-- Length of `INJDATA.szText`. -/
def SZTEXT_LEN : Nat := 200
/-- The module name looked up by the validity check. -/
def user32 : String := "user32.dll"

/-- What calling through a function pointer does in the process that runs the
payload. `callSendMessageTimeout` yields the `LRESULT`, the value stored in
`*lpdwResult` and the buffer `lParam` points to as the call leaves it. -/
structure Process where
  callGetWindowLongPtr : (fn hwnd : Nat) → (nIndex : Int) → Nat
  callGetClassInfoEx : (fn hInst atom : Nat) → (wc : WNDCLASSEX) → Nat × WNDCLASSEX
  callSendMessageTimeout :
    (fn hwnd msg wParam : Nat) → (buf : Buffer) → (flags timeout : Nat) → Nat × Nat × Buffer

/-- What the calling process can ask of the system. `GetModuleHandle` yields
`0` for a module that is not loaded; `GetModuleInformation` is the query on
the current process and yields `none` when the call fails. The five addresses
are the values of the function designators in the caller; `InjectRemoteThread` is the
primitive of `InjectThread.c`, applied to the code of `GetDataProc`: it is
given the window and the transfer record and yields its `BOOL` and the
transfer record as it is afterwards. -/
structure Env where
  ptrBits : Nat
  GetModuleHandle : String → Nat
  GetModuleInformation : Nat → Option MODULEINFO
  IsWindowUnicode : Nat → Bool
  SendMessageTimeout : Nat
  GetWindowLongPtrW : Nat
  GetWindowLongPtrA : Nat
  GetClassInfoExW : Nat
  GetClassInfoExA : Nat
  GetClassLong : Nat → Int → Nat
  GetClassLongPtr : Nat → Int → Nat
  InjectRemoteThread : Nat → INJDATA → Nat × INJDATA

/-! ## `GetRemoteWindowInfo.c`: code -/

/-- The payload `GetDataProc`: the exit status and the transfer record as the
payload leaves it. -/
def GetDataProc (p : Process) (pInjData : INJDATA) : Nat × INJDATA :=
  let d1 : INJDATA :=
    if pInjData.fnGetWindowLongPtr ≠ 0 then
      { pInjData with
        wndproc := p.callGetWindowLongPtr pInjData.fnGetWindowLongPtr pInjData.hwnd GWLP_WNDPROC }
    else pInjData
  let r2 : Nat × INJDATA :=
    if d1.fnGetClassInfoEx ≠ 0 then
      let r := p.callGetClassInfoEx d1.fnGetClassInfoEx d1.hInst d1.atom d1.wcOutput
      (r.1, { d1 with wcOutput := r.2 })
    else (0, d1)
  let fRet := r2.1
  let d2 := r2.2
  let d3 : INJDATA :=
    if d2.fnSendMessageTimeout ≠ 0 then
      let cleared := setAt d2.szText 0 0
      { d2 with
        szText := (p.callSendMessageTimeout d2.fnSendMessageTimeout d2.hwnd WM_GETTEXT
          d2.nTextSize cleared SMTO_ABORTIFHUNG 100).2.2 }
    else d2
  (fRet, d3)

/-- The function `IsInsideModule`; `w` is the width of a pointer, the end
address `lpBaseOfDll + SizeOfImage` is a pointer and so taken modulo `2 ^ w`. -/
def IsInsideModule (w : Nat) (pModuleInfo : MODULEINFO) (fn : Nat) : Bool :=
  decide (pModuleInfo.lpBaseOfDll ≤ fn) &&
    decide ((pModuleInfo.lpBaseOfDll + pModuleInfo.SizeOfImage) % 2 ^ w > fn)

/-- The function `IsInjectionDataValid`. -/
def IsInjectionDataValid (env : Env) (pInjData : INJDATA) : Bool :=
  let hModUser32 := env.GetModuleHandle user32
  if hModUser32 = 0 then false
  else
    match env.GetModuleInformation hModUser32 with
    | none => false
    | some moduleInfo =>
      IsInsideModule env.ptrBits moduleInfo pInjData.fnSendMessageTimeout &&
      IsInsideModule env.ptrBits moduleInfo pInjData.fnGetWindowLongPtr &&
      IsInsideModule env.ptrBits moduleInfo pInjData.fnGetClassInfoEx

/-- The bound `STRSAFE_MAX_CCH` of `strsafe.h`. -/
def STRSAFE_MAX_CCH : Nat := 2147483647

/-- The conversion of an `int` argument to `size_t` on a machine whose
pointers have `w` bits. -/
def toSizeT (w : Nat) (n : Int) : Nat := (n % (2 : Int) ^ w).toNat

/-- The copy loop of the `strsafe.h` worker,
`while (cchDest && *pszSrc) { *pszDest++ = *pszSrc++; cchDest--; }`:
the remaining count, the position reached and the destination. -/
def copyLoop (src : Buffer) : (cchDest pos : Nat) → (dest : Buffer) → Nat × Nat × Buffer
  | 0, pos, dest => (0, pos, dest)
  | r + 1, pos, dest =>
    if src pos = 0 then (r + 1, pos, dest)
    else copyLoop src r (pos + 1) (setAt dest pos (src pos))

/-- Modelled from the spec: the library function `StringCchCopy` of the
Windows header `strsafe.h`, which is not part of the sources; the spec has
it fill the destination "with at most `textCapacity-1` characters plus a
terminator". The header rejects a count of `0` or above `STRSAFE_MAX_CCH`
(storing a terminator at index `0` when the count is not `0`); otherwise it
copies up to the terminator of the source, steps back one place when the
destination is full, and stores the terminator. -/
def StringCchCopy (pszDest : Buffer) (cchDest : Nat) (pszSrc : Buffer) : Buffer :=
  if cchDest = 0 then pszDest
  else if cchDest > STRSAFE_MAX_CCH then setAt pszDest 0 0
  else
    let r := copyLoop pszSrc cchDest 0 pszDest
    let pos := if r.1 = 0 then r.2.1 - 1 else r.2.1
    setAt r.2.2 pos 0

/-- The transfer record as `GetRemoteWindowInfo` sets it up before the
validity check. In `INJDATA` the array `szText[200]` is followed by the `int`
`nTextSize`; after `ZeroMemory` and `nTextSize = 200` the memory that follows
the array therefore holds the character `200` at index `200` and `0` at index
`201` (the low and the next character of the little-endian `200`, for either
width of `TCHAR`), which is what a read past an unterminated `szText` meets. -/
def setupInjData (env : Env) (hwnd : Nat) : INJDATA :=
  { fnSendMessageTimeout := env.SendMessageTimeout
    fnGetWindowLongPtr :=
      if env.IsWindowUnicode hwnd then env.GetWindowLongPtrW else env.GetWindowLongPtrA
    fnGetClassInfoEx :=
      if env.IsWindowUnicode hwnd then env.GetClassInfoExW else env.GetClassInfoExA
    hwnd := hwnd
    atom := env.GetClassLong hwnd GCW_ATOM % 2 ^ 16
    hInst := env.GetClassLongPtr hwnd GCLP_HMODULE
    wcOutput := zeroWNDCLASSEX
    wndproc := 0
    szText := setAt zeroBuffer SZTEXT_LEN SZTEXT_LEN
    nTextSize := SZTEXT_LEN }

/-- What a call of `GetRemoteWindowInfo` leaves behind: the returned `BOOL`,
the out-parameters `*pClass` and `*pProc` (assigned on every path), the buffer
`pszText`, and the windows with which `InjectRemoteThread` was invoked, in
order. -/
structure RemoteWindowInfo where
  ret : Bool
  pClass : WNDCLASSEX
  pProc : Nat
  pszText : Buffer
  injectCalls : List Nat

/-- The evaluation of
`IsInjectionDataValid(&InjData) && InjectRemoteThread(hwnd, ...)`: the value
of `fReturn`, the transfer record afterwards, and the invocations of
`InjectRemoteThread`. The right operand runs only when the left one holds. -/
def runInjection (env : Env) (hwnd : Nat) (InjData : INJDATA) : Bool × INJDATA × List Nat :=
  if IsInjectionDataValid env InjData then
    let r := env.InjectRemoteThread hwnd InjData
    (decide (r.1 ≠ 0), r.2, [hwnd])
  else (false, InjData, [])

/-- The function `GetRemoteWindowInfo`; `pszText` is the caller's buffer as
it is before the call. -/
def GetRemoteWindowInfo (env : Env) (hwnd : Nat) (pszText : Buffer) (nTextLen : Int) :
    RemoteWindowInfo :=
  let run := runInjection env hwnd (setupInjData env hwnd)
  let fReturn := run.1
  let InjData := run.2.1
  if fReturn = false then
    { ret := false
      pProc := 0
      pClass := zeroWNDCLASSEX
      pszText := setAt pszText 0 0
      injectCalls := run.2.2 }
  else
    { ret := true
      pClass := { InjData.wcOutput with lpszClassName := 0, lpszMenuName := 0 }
      pProc := InjData.wndproc
      pszText := StringCchCopy pszText (toSizeT env.ptrBits nTextLen) InjData.szText
      injectCalls := run.2.2 }

/-! ## Same-process injection and the direct queries -/

/-- Modelled from the spec: the injection primitive `InjectRemoteThread` of
`InjectThread.c`, which is not part of the sources, for a window of the
calling process: it runs the payload on a copy of the transfer record, copies
the record back and returns the exit status of the payload. -/
def sameProcess (env : Env) (p : Process) : Env :=
  { env with InjectRemoteThread := fun _ InjData => GetDataProc p InjData }

/-- The direct window-procedure query on the window. -/
def directWndProc (env : Env) (p : Process) (hwnd : Nat) : Nat :=
  p.callGetWindowLongPtr
    (if env.IsWindowUnicode hwnd then env.GetWindowLongPtrW else env.GetWindowLongPtrA)
    hwnd GWLP_WNDPROC

/-- The direct class-info query on the module handle and class atom of the
window, into a zeroed record: its `BOOL` and the record. -/
def directClassInfo (env : Env) (p : Process) (hwnd : Nat) : Nat × WNDCLASSEX :=
  p.callGetClassInfoEx
    (if env.IsWindowUnicode hwnd then env.GetClassInfoExW else env.GetClassInfoExA)
    (env.GetClassLongPtr hwnd GCLP_HMODULE) (env.GetClassLong hwnd GCW_ATOM % 2 ^ 16)
    zeroWNDCLASSEX

/-- The direct window-text request into the buffer `buf` of `cch`
characters: the buffer afterwards. -/
def directText (env : Env) (p : Process) (hwnd : Nat) (buf : Buffer) (cch : Nat) : Buffer :=
  (p.callSendMessageTimeout env.SendMessageTimeout hwnd WM_GETTEXT cch buf
    SMTO_ABORTIFHUNG 100).2.2

/-- A pointer lies in the range of the module, over the unbounded integers. -/
def inModuleRange (m : MODULEINFO) (fn : Nat) : Prop :=
  m.lpBaseOfDll ≤ fn ∧ fn < m.lpBaseOfDll + m.SizeOfImage

instance (m : MODULEINFO) (fn : Nat) : Decidable (inModuleRange m fn) := by
  unfold inModuleRange; infer_instance

/-- The text contract of `GetRemoteWindowInfo` for a capacity `n`: the buffer
`out` holds a terminator at an index below `n`, and no element at an index
`n` or above differs from the buffer `before` the call. -/
def TextWithin (n : Int) (before out : Buffer) : Prop :=
  (∃ k : Nat, (k : Int) < n ∧ out k = 0) ∧ ∀ i : Nat, n ≤ (i : Int) → out i = before i

/-- The text of a window: a string, so none of its characters is the
terminator. -/
structure WindowText where
  chars : List Nat
  nonzero : ∀ c ∈ chars, c ≠ 0

/-- Modelled from the spec: the answer of a window with text `txt` to the
window-text request (`WM_GETTEXT`, served by the system and the window, not
by the sources) for a buffer of `cch` characters; the spec has it fill a
buffer "with at most `textCapacity-1` characters plus a terminator". Nothing
is stored for `cch = 0`; otherwise the first `min (length, cch - 1)`
characters of the text and the terminator are stored. -/
def windowTextRequest (txt : WindowText) (cch : Nat) (buf : Buffer) : Buffer :=
  fun i =>
    if cch = 0 then buf i
    else if i < min txt.chars.length (cch - 1) then txt.chars.getD i 0
    else if i = min txt.chars.length (cch - 1) then 0
    else buf i

/-- The window `hwnd` of the process `p` answers every text request made
through the caller's `SendMessageTimeout` with its text `txt`. -/
def AnswersTextRequest (env : Env) (p : Process) (hwnd : Nat) (txt : WindowText) : Prop :=
  ∀ (cch : Nat) (buf : Buffer),
    (p.callSendMessageTimeout env.SendMessageTimeout hwnd WM_GETTEXT cch buf
      SMTO_ABORTIFHUNG 100).2.2 = windowTextRequest txt cch buf

/-! ## Concrete systems used to evaluate the definitions -/

/-- A text of 250 letters `A`. -/
def demoText : WindowText :=
  { chars := List.replicate 250 65
    nonzero := fun c hc => by
      rw [List.mem_replicate] at hc
      omega }

/-- A process with one kind of window: its procedure is at `0x00401000`, its
class record carries string pointers into the process, and its text is
`demoText`, with which it answers a text request. -/
def demoProcess : Process :=
  { callGetWindowLongPtr := fun _ _ _ => 0x00401000
    callGetClassInfoEx := fun _ hInst _ wc =>
      (1, { wc with style := 3, lpfnWndProc := 0x00401000, hInstance := hInst,
                    hCursor := 0x00010003, hbrBackground := 6,
                    lpszMenuName := 0x00500000, lpszClassName := 0x00500010 })
    callSendMessageTimeout := fun _ _ _ wParam buf _ _ =>
      (1, min 250 (wParam - 1), windowTextRequest demoText wParam buf) }

/-- A text of three letters `A`. -/
def shortText : WindowText :=
  { chars := [65, 65, 65]
    nonzero := fun c hc => by
      simp only [List.mem_cons, List.mem_singleton, List.not_mem_nil, or_false] at hc
      omega }

/-- The process `demoProcess` with a window whose text is `shortText`. -/
def shortProcess : Process :=
  { demoProcess with
    callSendMessageTimeout := fun _ _ _ wParam buf _ _ =>
      (1, min 3 (wParam - 1), windowTextRequest shortText wParam buf) }

/-- The process `demoProcess` with a window that does not answer the text
request in time: the request stores nothing. -/
def timeoutProcess : Process :=
  { demoProcess with callSendMessageTimeout := fun _ _ _ _ buf _ _ => (0, 0, buf) }

/-- The process `demoProcess` with a text request that stores as many letters
as the buffer has characters and no terminator. -/
def fullProcess : Process :=
  { demoProcess with
    callSendMessageTimeout := fun _ _ _ wParam buf _ _ =>
      (1, wParam, fun i => if i < wParam then 65 else buf i) }

/-- A 32-bit caller with `user32.dll` at `0x77D00000`, of size `0x90000`, in
which the injection primitive fails and leaves a used transfer record. -/
def demoEnv : Env :=
  { ptrBits := 32
    GetModuleHandle := fun s => if s = user32 then 0x77D00000 else 0
    GetModuleInformation := fun h =>
      if h = 0x77D00000 then
        some { lpBaseOfDll := 0x77D00000, SizeOfImage := 0x90000, EntryPoint := 0x77D0B217 }
      else none
    IsWindowUnicode := fun _ => true
    SendMessageTimeout := 0x77D12345
    GetWindowLongPtrW := 0x77D23456
    GetWindowLongPtrA := 0x77D23556
    GetClassInfoExW := 0x77D34567
    GetClassInfoExA := 0x77D34667
    GetClassLong := fun _ _ => 0xC01A
    GetClassLongPtr := fun _ _ => 0x00400000
    InjectRemoteThread := fun _ InjData =>
      (0, { InjData with
            wndproc := 0x00401000
            wcOutput := { zeroWNDCLASSEX with style := 3, lpszClassName := 0x00500010 }
            szText := fun _ => 65 }) }

/-- The caller `demoEnv` under a shim that moves `GetWindowLongPtrW` out of
`user32.dll`; the injection primitive would succeed. -/
def shimEnv : Env :=
  { demoEnv with
    GetWindowLongPtrW := 0x10001000
    InjectRemoteThread := fun _ InjData => (1, InjData) }

/-- A 32-bit caller whose `user32.dll` module information ends exactly at the
top of the address space: `0xFFFF0000 + 0x10000 = 2 ^ 32`. -/
def wrapEnv : Env :=
  { demoEnv with
    GetModuleHandle := fun s => if s = user32 then 0xFFFF0000 else 0
    GetModuleInformation := fun h =>
      if h = 0xFFFF0000 then
        some { lpBaseOfDll := 0xFFFF0000, SizeOfImage := 0x10000, EntryPoint := 0xFFFF1000 }
      else none
    SendMessageTimeout := 0xFFFF1234
    GetWindowLongPtrW := 0xFFFF2345
    GetClassInfoExW := 0xFFFF3456 }

/-- The caller `demoEnv` with module information that starts at address `0`
and null addresses for `GetWindowLongPtrW` and `SendMessageTimeout`, which the
validity check accepts. -/
def nullEnv : Env :=
  { demoEnv with
    GetModuleInformation := fun h =>
      if h = 0x77D00000 then
        some { lpBaseOfDll := 0, SizeOfImage := 0x80000000, EntryPoint := 0x77D0B217 }
      else none
    SendMessageTimeout := 0
    GetWindowLongPtrW := 0 }

/-- A window handle. -/
def demoHwnd : Nat := 0x000A0B0C

/-- A caller buffer filled with the letter `Z`. -/
def demoBuffer : Buffer := fun _ => 90

/-- The style `WS_CAPTION`. -/
def WS_CAPTION : StyleLookupEx :=
  { name := "WS_CAPTION", value := 0x00C00000, extraMask := 0,
    dependencyValue := 0, dependencyExtraMask := 0 }

/-- The style `WS_SYSMENU`. -/
def WS_SYSMENU : StyleLookupEx :=
  { name := "WS_SYSMENU", value := 0x00080000, extraMask := 0,
    dependencyValue := 0, dependencyExtraMask := 0 }

/-- The module record of `wrapEnv`. -/
def wrapModule : MODULEINFO :=
  { lpBaseOfDll := 0xFFFF0000, SizeOfImage := 0x10000, EntryPoint := 0xFFFF1000 }

/-- The module record of `demoEnv`. -/
def demoModule : MODULEINFO :=
  { lpBaseOfDll := 0x77D00000, SizeOfImage := 0x90000, EntryPoint := 0x77D0B217 }

/-- A process in which the class-info call fails and the text request times
out, writing nothing. -/
def hungProcess : Process :=
  { callGetWindowLongPtr := fun _ _ _ => 0x00401000
    callGetClassInfoEx := fun _ _ _ wc => (0, { wc with style := 3 })
    callSendMessageTimeout := fun _ _ _ _ buf _ _ => (0, 0, buf) }

/-- A transfer record with stale output fields. -/
def staleInjData : INJDATA :=
  { setupInjData demoEnv demoHwnd with szText := demoBuffer, wndproc := 7 }

/-- The transfer record as the injection primitive leaves it. -/
def transferRecordAfter (env : Env) (hwnd : Nat) : INJDATA :=
  (env.InjectRemoteThread hwnd (setupInjData env hwnd)).2

/-- The caller `env` with the record that comes back from the injection
primitive replaced by `rec`; the returned `BOOL` is kept. -/
def withReturnedRecord (env : Env) (rec : INJDATA) : Env :=
  { env with InjectRemoteThread := fun h d => ((env.InjectRemoteThread h d).1, rec) }

/-- The caller `demoEnv` without `user32.dll`. -/
def noUser32Env : Env :=
  { demoEnv with GetModuleHandle := fun _ => 0 }

/-- The round trip as the claim states it: the outputs of the same-process
run equal the results of the direct queries, the text request being made into
the caller's buffer with `textCapacity` characters. -/
def RoundTripsDirect (env : Env) (p : Process) (hwnd : Nat) (pszText : Buffer) (n : Int) :
    Prop :=
  (GetRemoteWindowInfo (sameProcess env p) hwnd pszText n).pClass
    = (directClassInfo env p hwnd).2 ∧
  (GetRemoteWindowInfo (sameProcess env p) hwnd pszText n).pProc = directWndProc env p hwnd ∧
  (GetRemoteWindowInfo (sameProcess env p) hwnd pszText n).pszText
    = directText env p hwnd pszText (toSizeT env.ptrBits n)

set_option maxRecDepth 8000

/-! ## Style lookup -/

/-- Without a dependency the style test is the masked comparison. -/
theorem StyleApplicableAndPresent_noDependency (x : Nat) (s : StyleLookupEx)
    (hv : s.dependencyValue = 0) (hm : s.dependencyExtraMask = 0) :
    StyleApplicableAndPresent x s = decide ((s.value ||| s.extraMask) &&& x = s.value) := by
  unfold StyleApplicableAndPresent
  rw [hv, hm]
  simp [beq_eq_decide]

/-- Masking with two disjoint masks: the joint comparison splits. -/
theorem masked_eq_split (x v1 e1 v2 e2 : Nat)
    (hdisj : (v1 ||| e1) &&& (v2 ||| e2) = 0) :
    ((v1 ||| v2) ||| (e1 ||| e2)) &&& x = v1 ||| v2 ↔
      (v1 ||| e1) &&& x = v1 ∧ (v2 ||| e2) &&& x = v2 := by
  have hbit : ∀ i, ((v1.testBit i || e1.testBit i) && (v2.testBit i || e2.testBit i)) = false := by
    intro i
    have := congrArg (fun t => t.testBit i) hdisj
    simpa [Nat.testBit_and, Nat.testBit_or] using this
  constructor
  · intro h
    have hb : ∀ i, (((v1.testBit i || v2.testBit i) || (e1.testBit i || e2.testBit i))
        && x.testBit i) = (v1.testBit i || v2.testBit i) := by
      intro i
      have := congrArg (fun t => t.testBit i) h
      simpa [Nat.testBit_and, Nat.testBit_or] using this
    constructor
    · apply Nat.eq_of_testBit_eq
      intro i
      have h1 := hb i
      have h2 := hbit i
      rw [Nat.testBit_and, Nat.testBit_or]
      revert h1 h2
      cases v1.testBit i <;> cases e1.testBit i <;> cases v2.testBit i <;>
        cases e2.testBit i <;> cases x.testBit i <;> simp
    · apply Nat.eq_of_testBit_eq
      intro i
      have h1 := hb i
      have h2 := hbit i
      rw [Nat.testBit_and, Nat.testBit_or]
      revert h1 h2
      cases v1.testBit i <;> cases e1.testBit i <;> cases v2.testBit i <;>
        cases e2.testBit i <;> cases x.testBit i <;> simp
  · rintro ⟨ha, hb⟩
    apply Nat.eq_of_testBit_eq
    intro i
    have h1 : ((v1.testBit i || e1.testBit i) && x.testBit i) = v1.testBit i := by
      have := congrArg (fun t => t.testBit i) ha
      simpa [Nat.testBit_and, Nat.testBit_or] using this
    have h2 : ((v2.testBit i || e2.testBit i) && x.testBit i) = v2.testBit i := by
      have := congrArg (fun t => t.testBit i) hb
      simpa [Nat.testBit_and, Nat.testBit_or] using this
    have h3 := hbit i
    simp only [Nat.testBit_and, Nat.testBit_or]
    revert h1 h2 h3
    cases v1.testBit i <;> cases e1.testBit i <;> cases v2.testBit i <;>
      cases e2.testBit i <;> cases x.testBit i <;> simp

/-- C8: for two styles without a dependency whose masks `value | extraMask`
share no bit, the combination style (value `v1 | v2`, extraMask `e1 | e2`) is
applicable and present in a styles value `x` exactly when both component
styles are. -/
theorem C8_combination_style_iff (x : Nat) (name : String) (s1 s2 : StyleLookupEx)
    (hd1 : s1.dependencyValue = 0 ∧ s1.dependencyExtraMask = 0)
    (hd2 : s2.dependencyValue = 0 ∧ s2.dependencyExtraMask = 0)
    (hdisj : (s1.value ||| s1.extraMask) &&& (s2.value ||| s2.extraMask) = 0) :
    StyleApplicableAndPresent x (combinationStyle name s1 s2) = true ↔
      StyleApplicableAndPresent x s1 = true ∧ StyleApplicableAndPresent x s2 = true := by
  rw [StyleApplicableAndPresent_noDependency x s1 hd1.1 hd1.2,
    StyleApplicableAndPresent_noDependency x s2 hd2.1 hd2.2,
    StyleApplicableAndPresent_noDependency x (combinationStyle name s1 s2) rfl rfl]
  simp only [decide_eq_true_eq, combinationStyle]
  exact masked_eq_split x s1.value s1.extraMask s2.value s2.extraMask hdisj

/-- C8 at `WS_CAPTION` and `WS_SYSMENU` in the styles value `0x00CF0000`. -/
theorem C8_combination_style_iff_witness :
    (WS_CAPTION.value ||| WS_CAPTION.extraMask) &&& (WS_SYSMENU.value ||| WS_SYSMENU.extraMask) = 0 ∧
    (StyleApplicableAndPresent 0x00CF0000 (combinationStyle "WS_CAPTION | WS_SYSMENU" WS_CAPTION WS_SYSMENU) = true ↔
      StyleApplicableAndPresent 0x00CF0000 WS_CAPTION = true ∧
        StyleApplicableAndPresent 0x00CF0000 WS_SYSMENU = true) :=
  ⟨by decide,
    C8_combination_style_iff 0x00CF0000 "WS_CAPTION | WS_SYSMENU" WS_CAPTION WS_SYSMENU
      ⟨rfl, rfl⟩ ⟨rfl, rfl⟩ (by decide)⟩

/-! ## The validity check -/

/-- An accepted pointer lies in the range of the module. -/
theorem IsInsideModule_inRange (w : Nat) (m : MODULEINFO) (fn : Nat)
    (h : IsInsideModule w m fn = true) : inModuleRange m fn := by
  unfold IsInsideModule at h
  simp only [Bool.and_eq_true, decide_eq_true_eq] at h
  exact ⟨h.1, lt_of_lt_of_le h.2 (Nat.mod_le _ _)⟩

/-- When the end address does not wrap, the test is the range test. -/
theorem IsInsideModule_iff (w : Nat) (m : MODULEINFO) (fn : Nat)
    (hend : m.lpBaseOfDll + m.SizeOfImage < 2 ^ w) :
    IsInsideModule w m fn = true ↔ inModuleRange m fn := by
  unfold IsInsideModule inModuleRange
  rw [Nat.mod_eq_of_lt hend]
  simp

/-- With the library located and its module information at hand, the
validity check is the conjunction of the three pointer tests. -/
theorem IsInjectionDataValid_eq (env : Env) (d : INJDATA) (m : MODULEINFO)
    (hmod : env.GetModuleHandle user32 ≠ 0)
    (hinfo : env.GetModuleInformation (env.GetModuleHandle user32) = some m) :
    IsInjectionDataValid env d =
      (IsInsideModule env.ptrBits m d.fnSendMessageTimeout &&
        IsInsideModule env.ptrBits m d.fnGetWindowLongPtr &&
        IsInsideModule env.ptrBits m d.fnGetClassInfoEx) := by
  unfold IsInjectionDataValid
  simp only [hmod, if_false, hinfo]

/-- C10: a pointer that `IsInsideModule` accepts lies in
`[base, base + SizeOfImage)` over the unbounded integers, for every pointer
width, base, size and pointer, the end address being computed modulo `2 ^ w`;
and a null pointer is rejected whenever the base is not zero. -/
theorem C10_IsInsideModule_sound (w : Nat) (m : MODULEINFO) (fn : Nat) :
    (IsInsideModule w m fn = true →
      m.lpBaseOfDll ≤ fn ∧ fn < m.lpBaseOfDll + m.SizeOfImage) ∧
    (m.lpBaseOfDll ≠ 0 → IsInsideModule w m 0 = false) := by
  refine ⟨fun h => IsInsideModule_inRange w m fn h, fun hb => ?_⟩
  unfold IsInsideModule
  simp [hb]

/-- C10 at the module of `demoEnv`: an accepted pointer and the null pointer. -/
theorem C10_IsInsideModule_sound_witness :
    IsInsideModule 32 demoModule 0x77D12345 = true ∧
    (demoModule.lpBaseOfDll ≤ 0x77D12345 ∧
      0x77D12345 < demoModule.lpBaseOfDll + demoModule.SizeOfImage) ∧
    demoModule.lpBaseOfDll ≠ 0 ∧ IsInsideModule 32 demoModule 0 = false :=
  ⟨by decide, (C10_IsInsideModule_sound 32 demoModule 0x77D12345).1 (by decide),
    by decide, (C10_IsInsideModule_sound 32 demoModule 0x77D12345).2 (by decide)⟩

/-- C5 as stated fails where the end address wraps: in `wrapEnv` the library
is located with module information, all three pointers of the transfer record
lie in `[base, base + size)`, and the validity check returns false. -/
theorem C5_counterexample :
    wrapEnv.GetModuleHandle user32 ≠ 0 ∧
    wrapEnv.GetModuleInformation (wrapEnv.GetModuleHandle user32) = some wrapModule ∧
    (inModuleRange wrapModule (setupInjData wrapEnv demoHwnd).fnSendMessageTimeout ∧
      inModuleRange wrapModule (setupInjData wrapEnv demoHwnd).fnGetWindowLongPtr ∧
      inModuleRange wrapModule (setupInjData wrapEnv demoHwnd).fnGetClassInfoEx) ∧
    IsInjectionDataValid wrapEnv (setupInjData wrapEnv demoHwnd) = false := by
  refine ⟨by decide, by decide, ⟨by decide, by decide, by decide⟩, by decide⟩

/-- C5, amended: with the library located, its module information `(base,
size)` at hand and `base + size` below `2 ^ w`, the validity check returns
true exactly when each of the three pointers lies in `[base, base + size)`. -/
theorem C5_valid_iff_in_range (env : Env) (d : INJDATA) (m : MODULEINFO)
    (hmod : env.GetModuleHandle user32 ≠ 0)
    (hinfo : env.GetModuleInformation (env.GetModuleHandle user32) = some m)
    (hend : m.lpBaseOfDll + m.SizeOfImage < 2 ^ env.ptrBits) :
    IsInjectionDataValid env d = true ↔
      inModuleRange m d.fnSendMessageTimeout ∧ inModuleRange m d.fnGetWindowLongPtr ∧
        inModuleRange m d.fnGetClassInfoEx := by
  rw [IsInjectionDataValid_eq env d m hmod hinfo]
  simp only [Bool.and_eq_true, IsInsideModule_iff _ m _ hend, and_assoc]

/-- C5, amended, at `demoEnv` (all three pointers inside: true) and at
`shimEnv` (one pointer outside: false). -/
theorem C5_valid_iff_in_range_witness :
    IsInjectionDataValid demoEnv (setupInjData demoEnv demoHwnd) = true ∧
    (IsInjectionDataValid shimEnv (setupInjData shimEnv demoHwnd) = true ↔
      inModuleRange demoModule (setupInjData shimEnv demoHwnd).fnSendMessageTimeout ∧
        inModuleRange demoModule (setupInjData shimEnv demoHwnd).fnGetWindowLongPtr ∧
        inModuleRange demoModule (setupInjData shimEnv demoHwnd).fnGetClassInfoEx) ∧
    IsInjectionDataValid shimEnv (setupInjData shimEnv demoHwnd) = false :=
  ⟨(C5_valid_iff_in_range demoEnv (setupInjData demoEnv demoHwnd) demoModule
      (by decide) (by decide) (by decide)).2 ⟨by decide, by decide, by decide⟩,
    C5_valid_iff_in_range shimEnv (setupInjData shimEnv demoHwnd) demoModule
      (by decide) (by decide) (by decide),
    by decide⟩

/-! ## The payload -/

/-- The exit status of the payload. -/
theorem GetDataProc_fst (p : Process) (d : INJDATA) :
    (GetDataProc p d).1 =
      if d.fnGetClassInfoEx ≠ 0 then
        (p.callGetClassInfoEx d.fnGetClassInfoEx d.hInst d.atom d.wcOutput).1
      else 0 := by
  unfold GetDataProc
  by_cases h1 : d.fnGetWindowLongPtr = 0 <;> by_cases h2 : d.fnGetClassInfoEx = 0 <;>
    simp [h1, h2]

/-- The procedure address in the record the payload leaves. -/
theorem GetDataProc_wndproc (p : Process) (d : INJDATA) :
    (GetDataProc p d).2.wndproc =
      if d.fnGetWindowLongPtr ≠ 0 then
        p.callGetWindowLongPtr d.fnGetWindowLongPtr d.hwnd GWLP_WNDPROC
      else d.wndproc := by
  unfold GetDataProc
  by_cases h1 : d.fnGetWindowLongPtr = 0 <;> by_cases h2 : d.fnGetClassInfoEx = 0 <;>
    by_cases h3 : d.fnSendMessageTimeout = 0 <;> simp [h1, h2, h3]

/-- The class record in the record the payload leaves. -/
theorem GetDataProc_wcOutput (p : Process) (d : INJDATA) :
    (GetDataProc p d).2.wcOutput =
      if d.fnGetClassInfoEx ≠ 0 then
        (p.callGetClassInfoEx d.fnGetClassInfoEx d.hInst d.atom d.wcOutput).2
      else d.wcOutput := by
  unfold GetDataProc
  by_cases h1 : d.fnGetWindowLongPtr = 0 <;> by_cases h2 : d.fnGetClassInfoEx = 0 <;>
    by_cases h3 : d.fnSendMessageTimeout = 0 <;> simp [h1, h2, h3]

/-- The text in the record the payload leaves. -/
theorem GetDataProc_szText (p : Process) (d : INJDATA) :
    (GetDataProc p d).2.szText =
      if d.fnSendMessageTimeout ≠ 0 then
        (p.callSendMessageTimeout d.fnSendMessageTimeout d.hwnd WM_GETTEXT d.nTextSize
          (setAt d.szText 0 0) SMTO_ABORTIFHUNG 100).2.2
      else d.szText := by
  unfold GetDataProc
  by_cases h1 : d.fnGetWindowLongPtr = 0 <;> by_cases h2 : d.fnGetClassInfoEx = 0 <;>
    by_cases h3 : d.fnSendMessageTimeout = 0 <;> simp [h1, h2, h3]

/-- C7: `GetDataProc` returns the outcome of the class-info call made with
the record's `hInst`, `atom` and `wcOutput` when the class-info pointer is
present and `0` when it is absent; replacing the procedure-address call and
the text request (result code included) by any others leaves the return value
unchanged. -/
theorem C7_GetDataProc_returns_classinfo_outcome (p : Process) (d : INJDATA)
    (g : Nat → Nat → Int → Nat)
    (t : Nat → Nat → Nat → Nat → Buffer → Nat → Nat → Nat × Nat × Buffer) :
    (GetDataProc p d).1 =
      (if d.fnGetClassInfoEx ≠ 0 then
        (p.callGetClassInfoEx d.fnGetClassInfoEx d.hInst d.atom d.wcOutput).1
      else 0) ∧
    (GetDataProc { p with callGetWindowLongPtr := g, callSendMessageTimeout := t } d).1 =
      (GetDataProc p d).1 := by
  refine ⟨GetDataProc_fst p d, ?_⟩
  rw [GetDataProc_fst, GetDataProc_fst]

/-- C9: when the text pointer is present and the text request writes nothing
into the buffer it is handed, the record `GetDataProc` leaves has `szText[0]`
equal to the terminator (whatever `szText` held before), while `wndproc` and
`wcOutput` hold the values of the procedure-address and class-info steps. -/
theorem C9_GetDataProc_text_timeout (p : Process) (d : INJDATA)
    (hfn : d.fnSendMessageTimeout ≠ 0)
    (hnothing :
      (p.callSendMessageTimeout d.fnSendMessageTimeout d.hwnd WM_GETTEXT d.nTextSize
        (setAt d.szText 0 0) SMTO_ABORTIFHUNG 100).2.2 = setAt d.szText 0 0) :
    (GetDataProc p d).2.szText 0 = 0 ∧
    (GetDataProc p d).2.wndproc =
      (if d.fnGetWindowLongPtr ≠ 0 then
        p.callGetWindowLongPtr d.fnGetWindowLongPtr d.hwnd GWLP_WNDPROC
      else d.wndproc) ∧
    (GetDataProc p d).2.wcOutput =
      (if d.fnGetClassInfoEx ≠ 0 then
        (p.callGetClassInfoEx d.fnGetClassInfoEx d.hInst d.atom d.wcOutput).2
      else d.wcOutput) := by
  refine ⟨?_, GetDataProc_wndproc p d, GetDataProc_wcOutput p d⟩
  rw [GetDataProc_szText, if_pos hfn, hnothing]
  simp [setAt]

/-- C9 at a hung window and a record with stale text: the text is emptied,
the procedure address and the class record of the first two steps stay. -/
theorem C9_GetDataProc_text_timeout_witness :
    staleInjData.szText 0 = 90 ∧
    (GetDataProc hungProcess staleInjData).2.szText 0 = 0 ∧
    (GetDataProc hungProcess staleInjData).2.wndproc = 0x00401000 ∧
    (GetDataProc hungProcess staleInjData).2.wcOutput = { zeroWNDCLASSEX with style := 3 } := by
  have h := C9_GetDataProc_text_timeout hungProcess staleInjData (by decide) rfl
  exact ⟨by decide, h.1, h.2.1.trans (by decide), h.2.2.trans (by decide)⟩

/-! ## The orchestrator: failure paths -/

/-- The validity check fails when the library is not located. -/
theorem IsInjectionDataValid_no_library (env : Env) (d : INJDATA)
    (h : env.GetModuleHandle user32 = 0) : IsInjectionDataValid env d = false := by
  unfold IsInjectionDataValid
  simp [h]

/-- The validity check fails when the module information query fails. -/
theorem IsInjectionDataValid_no_information (env : Env) (d : INJDATA)
    (h : env.GetModuleInformation (env.GetModuleHandle user32) = none) :
    IsInjectionDataValid env d = false := by
  unfold IsInjectionDataValid
  simp [h]

/-- The validity check fails when one of the three pointers is rejected. -/
theorem IsInjectionDataValid_pointer_outside (env : Env) (d : INJDATA) (m : MODULEINFO)
    (hinfo : env.GetModuleInformation (env.GetModuleHandle user32) = some m)
    (h : IsInsideModule env.ptrBits m d.fnSendMessageTimeout = false ∨
      IsInsideModule env.ptrBits m d.fnGetWindowLongPtr = false ∨
      IsInsideModule env.ptrBits m d.fnGetClassInfoEx = false) :
    IsInjectionDataValid env d = false := by
  unfold IsInjectionDataValid
  rcases h with h | h | h <;> simp [hinfo, h]

/-- The value of `fReturn`. -/
theorem runInjection_fst (env : Env) (hwnd : Nat) (d : INJDATA) :
    (runInjection env hwnd d).1 =
      (IsInjectionDataValid env d && decide ((env.InjectRemoteThread hwnd d).1 ≠ 0)) := by
  unfold runInjection
  cases IsInjectionDataValid env d <;> simp

/-- The invocations of the injection primitive. -/
theorem runInjection_calls (env : Env) (hwnd : Nat) (d : INJDATA) :
    (runInjection env hwnd d).2.2 = if IsInjectionDataValid env d then [hwnd] else [] := by
  unfold runInjection
  cases IsInjectionDataValid env d <;> simp

/-- The transfer record after a run in which `fReturn` is true. -/
theorem runInjection_record (env : Env) (hwnd : Nat) (d : INJDATA)
    (h : (runInjection env hwnd d).1 = true) :
    (runInjection env hwnd d).2.1 = (env.InjectRemoteThread hwnd d).2 := by
  unfold runInjection at h ⊢
  cases hv : IsInjectionDataValid env d <;> simp [hv] at h ⊢

/-- What `GetRemoteWindowInfo` leaves when `fReturn` is false. -/
theorem GetRemoteWindowInfo_of_false (env : Env) (hwnd : Nat) (pszText : Buffer) (n : Int)
    (h : (runInjection env hwnd (setupInjData env hwnd)).1 = false) :
    GetRemoteWindowInfo env hwnd pszText n =
      { ret := false, pProc := 0, pClass := zeroWNDCLASSEX, pszText := setAt pszText 0 0,
        injectCalls := (runInjection env hwnd (setupInjData env hwnd)).2.2 } := by
  unfold GetRemoteWindowInfo
  simp [h]

/-- What `GetRemoteWindowInfo` leaves when `fReturn` is true. -/
theorem GetRemoteWindowInfo_of_true (env : Env) (hwnd : Nat) (pszText : Buffer) (n : Int)
    (h : (runInjection env hwnd (setupInjData env hwnd)).1 = true) :
    GetRemoteWindowInfo env hwnd pszText n =
      { ret := true
        pClass := { (transferRecordAfter env hwnd).wcOutput with
                    lpszClassName := 0, lpszMenuName := 0 }
        pProc := (transferRecordAfter env hwnd).wndproc
        pszText := StringCchCopy pszText (toSizeT env.ptrBits n)
          (transferRecordAfter env hwnd).szText
        injectCalls := (runInjection env hwnd (setupInjData env hwnd)).2.2 } := by
  have hr := runInjection_record env hwnd (setupInjData env hwnd) h
  unfold GetRemoteWindowInfo transferRecordAfter
  simp [h, hr]

/-- The returned `BOOL` is the value of `fReturn`. -/
theorem GetRemoteWindowInfo_ret (env : Env) (hwnd : Nat) (pszText : Buffer) (n : Int) :
    (GetRemoteWindowInfo env hwnd pszText n).ret =
      (runInjection env hwnd (setupInjData env hwnd)).1 := by
  cases h : (runInjection env hwnd (setupInjData env hwnd)).1
  · rw [GetRemoteWindowInfo_of_false env hwnd pszText n h]
  · rw [GetRemoteWindowInfo_of_true env hwnd pszText n h]

/-- C1: when the validity check returns false or the injection primitive
returns false, `GetRemoteWindowInfo` returns FALSE with `*pProc` null, every
field of `*pClass` zero and `pszText[0]` the terminator; and whatever record
the payload hands back, the call leaves the same result. -/
theorem C1_failure_outputs_empty (env : Env) (hwnd : Nat) (pszText : Buffer) (n : Int)
    (h : IsInjectionDataValid env (setupInjData env hwnd) = false ∨
      (env.InjectRemoteThread hwnd (setupInjData env hwnd)).1 = 0) :
    (GetRemoteWindowInfo env hwnd pszText n).ret = false ∧
    (GetRemoteWindowInfo env hwnd pszText n).pProc = 0 ∧
    (GetRemoteWindowInfo env hwnd pszText n).pClass = zeroWNDCLASSEX ∧
    (GetRemoteWindowInfo env hwnd pszText n).pszText 0 = 0 ∧
    ∀ rec : INJDATA,
      GetRemoteWindowInfo (withReturnedRecord env rec) hwnd pszText n =
        GetRemoteWindowInfo env hwnd pszText n := by
  have hf : (runInjection env hwnd (setupInjData env hwnd)).1 = false := by
    rw [runInjection_fst]
    rcases h with h | h <;> simp [h]
  have hf2 : ∀ rec : INJDATA, (runInjection (withReturnedRecord env rec) hwnd
      (setupInjData (withReturnedRecord env rec) hwnd)).1 = false := by
    intro rec
    rw [runInjection_fst]
    rw [runInjection_fst] at hf
    exact hf
  rw [GetRemoteWindowInfo_of_false env hwnd pszText n hf]
  refine ⟨rfl, rfl, rfl, by simp [setAt], ?_⟩
  intro rec
  rw [GetRemoteWindowInfo_of_false _ hwnd pszText n (hf2 rec), runInjection_calls,
    runInjection_calls]
  rfl

/-- C1 at `demoEnv`, where the injection primitive returns false after the
payload has filled the record, and at `noUser32Env`, where the library is not
located. -/
theorem C1_failure_outputs_empty_witness :
    (demoEnv.InjectRemoteThread demoHwnd (setupInjData demoEnv demoHwnd)).1 = 0 ∧
    (transferRecordAfter demoEnv demoHwnd).wndproc = 0x00401000 ∧
    (GetRemoteWindowInfo demoEnv demoHwnd demoBuffer 16).ret = false ∧
    (GetRemoteWindowInfo demoEnv demoHwnd demoBuffer 16).pProc = 0 ∧
    (GetRemoteWindowInfo demoEnv demoHwnd demoBuffer 16).pClass = zeroWNDCLASSEX ∧
    (GetRemoteWindowInfo demoEnv demoHwnd demoBuffer 16).pszText 0 = 0 ∧
    noUser32Env.GetModuleHandle user32 = 0 ∧
    (GetRemoteWindowInfo noUser32Env demoHwnd demoBuffer 16).ret = false ∧
    (GetRemoteWindowInfo noUser32Env demoHwnd demoBuffer 16).pClass = zeroWNDCLASSEX :=
  have h := C1_failure_outputs_empty demoEnv demoHwnd demoBuffer 16 (Or.inr (by decide))
  have g := C1_failure_outputs_empty noUser32Env demoHwnd demoBuffer 16 (Or.inl (by decide))
  ⟨by decide, by decide, h.1, h.2.1, h.2.2.1, h.2.2.2.1, by decide, g.1, g.2.2.1⟩

/-- C2: in a run of `GetRemoteWindowInfo` in which the validity check returns
false, `InjectRemoteThread` is not invoked and the call returns FALSE. -/
theorem C2_no_injection_when_invalid (env : Env) (hwnd : Nat) (pszText : Buffer) (n : Int)
    (h : IsInjectionDataValid env (setupInjData env hwnd) = false) :
    (GetRemoteWindowInfo env hwnd pszText n).injectCalls = [] ∧
    (GetRemoteWindowInfo env hwnd pszText n).ret = false := by
  have hf : (runInjection env hwnd (setupInjData env hwnd)).1 = false := by
    rw [runInjection_fst, h]; rfl
  rw [GetRemoteWindowInfo_of_false env hwnd pszText n hf, runInjection_calls, h]
  exact ⟨rfl, rfl⟩

/-- C2 at `shimEnv`, where one pointer lies outside the library and the
injection primitive would have succeeded. -/
theorem C2_no_injection_when_invalid_witness :
    IsInjectionDataValid shimEnv (setupInjData shimEnv demoHwnd) = false ∧
    (shimEnv.InjectRemoteThread demoHwnd (setupInjData shimEnv demoHwnd)).1 = 1 ∧
    (GetRemoteWindowInfo shimEnv demoHwnd demoBuffer 16).injectCalls = [] ∧
    (GetRemoteWindowInfo shimEnv demoHwnd demoBuffer 16).ret = false :=
  have h := C2_no_injection_when_invalid shimEnv demoHwnd demoBuffer 16 (by decide)
  ⟨by decide, by decide, h.1, h.2⟩

/-- With a valid transfer record the injection primitive is invoked once, on
the window. -/
theorem injectCalls_of_valid (env : Env) (hwnd : Nat) (pszText : Buffer) (n : Int)
    (h : IsInjectionDataValid env (setupInjData env hwnd) = true) :
    (GetRemoteWindowInfo env hwnd pszText n).injectCalls = [hwnd] := by
  cases hf : (runInjection env hwnd (setupInjData env hwnd)).1
  · rw [GetRemoteWindowInfo_of_false env hwnd pszText n hf, runInjection_calls, h]; rfl
  · rw [GetRemoteWindowInfo_of_true env hwnd pszText n hf, runInjection_calls, h]; rfl

/-- C3: on every return of `GetRemoteWindowInfo` the fields `lpszClassName`
and `lpszMenuName` of `*pClass` are null; on success every other field of
`*pClass` equals the field of `wcOutput` in the transfer record that came
back. -/
theorem C3_class_string_pointers_null (env : Env) (hwnd : Nat) (pszText : Buffer) (n : Int) :
    (GetRemoteWindowInfo env hwnd pszText n).pClass.lpszClassName = 0 ∧
    (GetRemoteWindowInfo env hwnd pszText n).pClass.lpszMenuName = 0 ∧
    ((GetRemoteWindowInfo env hwnd pszText n).ret = true →
      (GetRemoteWindowInfo env hwnd pszText n).pClass.cbSize =
        (transferRecordAfter env hwnd).wcOutput.cbSize ∧
      (GetRemoteWindowInfo env hwnd pszText n).pClass.style =
        (transferRecordAfter env hwnd).wcOutput.style ∧
      (GetRemoteWindowInfo env hwnd pszText n).pClass.lpfnWndProc =
        (transferRecordAfter env hwnd).wcOutput.lpfnWndProc ∧
      (GetRemoteWindowInfo env hwnd pszText n).pClass.cbClsExtra =
        (transferRecordAfter env hwnd).wcOutput.cbClsExtra ∧
      (GetRemoteWindowInfo env hwnd pszText n).pClass.cbWndExtra =
        (transferRecordAfter env hwnd).wcOutput.cbWndExtra ∧
      (GetRemoteWindowInfo env hwnd pszText n).pClass.hInstance =
        (transferRecordAfter env hwnd).wcOutput.hInstance ∧
      (GetRemoteWindowInfo env hwnd pszText n).pClass.hIcon =
        (transferRecordAfter env hwnd).wcOutput.hIcon ∧
      (GetRemoteWindowInfo env hwnd pszText n).pClass.hCursor =
        (transferRecordAfter env hwnd).wcOutput.hCursor ∧
      (GetRemoteWindowInfo env hwnd pszText n).pClass.hbrBackground =
        (transferRecordAfter env hwnd).wcOutput.hbrBackground ∧
      (GetRemoteWindowInfo env hwnd pszText n).pClass.hIconSm =
        (transferRecordAfter env hwnd).wcOutput.hIconSm) := by
  cases hf : (runInjection env hwnd (setupInjData env hwnd)).1
  · rw [GetRemoteWindowInfo_of_false env hwnd pszText n hf]
    exact ⟨rfl, rfl, fun h => absurd h (by simp)⟩
  · rw [GetRemoteWindowInfo_of_true env hwnd pszText n hf]
    exact ⟨rfl, rfl, fun _ => ⟨rfl, rfl, rfl, rfl, rfl, rfl, rfl, rfl, rfl, rfl⟩⟩

/-- C3 at a successful same-process run: the payload stored string pointers
in `wcOutput`, the returned record has them null and keeps the style. -/
theorem C3_class_string_pointers_null_witness :
    (GetRemoteWindowInfo (sameProcess demoEnv demoProcess) demoHwnd demoBuffer 16).ret = true ∧
    (transferRecordAfter (sameProcess demoEnv demoProcess) demoHwnd).wcOutput.lpszClassName
      = 0x00500010 ∧
    (GetRemoteWindowInfo (sameProcess demoEnv demoProcess) demoHwnd demoBuffer
      16).pClass.lpszClassName = 0 ∧
    (GetRemoteWindowInfo (sameProcess demoEnv demoProcess) demoHwnd demoBuffer
      16).pClass.lpszMenuName = 0 ∧
    (GetRemoteWindowInfo (sameProcess demoEnv demoProcess) demoHwnd demoBuffer
      16).pClass.style = 3 :=
  have h := C3_class_string_pointers_null (sameProcess demoEnv demoProcess) demoHwnd
    demoBuffer 16
  ⟨by decide, by decide, h.1, h.2.1, ((h.2.2 (by decide)).2.1).trans (by decide)⟩

/-! ## The orchestrator: the text output -/

/-- The copy loop keeps `remaining + position` constant, moves forward, and
changes no element outside the positions it passed. -/
theorem copyLoop_spec (src : Buffer) :
    ∀ (r pos : Nat) (dest : Buffer),
      (copyLoop src r pos dest).1 + (copyLoop src r pos dest).2.1 = r + pos ∧
      pos ≤ (copyLoop src r pos dest).2.1 ∧
      ∀ i, i < pos ∨ (copyLoop src r pos dest).2.1 ≤ i →
        (copyLoop src r pos dest).2.2 i = dest i := by
  intro r
  induction r with
  | zero =>
    intro pos dest
    simp [copyLoop]
  | succ r ih =>
    intro pos dest
    by_cases hs : src pos = 0
    · simp [copyLoop, hs]
    · simp only [copyLoop, hs, if_false]
      obtain ⟨h1, h2, h3⟩ := ih (pos + 1) (setAt dest pos (src pos))
      refine ⟨by omega, by omega, ?_⟩
      intro i hi
      rw [h3 i (by omega)]
      have hne : i ≠ pos := by omega
      simp [setAt, hne]

/-- For a count from `1` to `STRSAFE_MAX_CCH`, `StringCchCopy` stores a
terminator below the count and changes nothing at or above it. -/
theorem StringCchCopy_within (dest src : Buffer) (c : Nat) (h1 : 1 ≤ c)
    (h2 : c ≤ STRSAFE_MAX_CCH) :
    (∃ k, k < c ∧ StringCchCopy dest c src k = 0) ∧
    ∀ i, c ≤ i → StringCchCopy dest c src i = dest i := by
  obtain ⟨ha, _, hc⟩ := copyLoop_spec src c 0 dest
  have hne : c ≠ 0 := by omega
  have hle : ¬ c > STRSAFE_MAX_CCH := by omega
  unfold StringCchCopy
  simp only [hne, hle, if_false]
  by_cases hz : (copyLoop src c 0 dest).1 = 0
  · simp only [hz, if_true]
    refine ⟨⟨(copyLoop src c 0 dest).2.1 - 1, by omega, by simp [setAt]⟩, ?_⟩
    intro i hi
    have hne2 : i ≠ (copyLoop src c 0 dest).2.1 - 1 := by omega
    simp only [setAt, hne2, if_false]
    exact hc i (Or.inr (by omega))
  · simp only [hz, if_false]
    refine ⟨⟨(copyLoop src c 0 dest).2.1, by omega, by simp [setAt]⟩, ?_⟩
    intro i hi
    have hne2 : i ≠ (copyLoop src c 0 dest).2.1 := by omega
    simp only [setAt, hne2, if_false]
    exact hc i (Or.inr (by omega))

/-- An `int` from `0` to `INT_MAX` keeps its value as a `size_t` of at least
32 bits. -/
theorem toSizeT_of_nonneg (w : Nat) (n : Int) (hw : 32 ≤ w) (h0 : 0 ≤ n)
    (h1 : n ≤ 2147483647) : toSizeT w n = n.toNat := by
  unfold toSizeT
  have hp : (2 : Int) ^ 32 ≤ (2 : Int) ^ w := pow_le_pow_right₀ (by norm_num) hw
  have hlt : n < (2 : Int) ^ w := by
    have : (2 : Int) ^ 32 = 4294967296 := by norm_num
    omega
  rw [Int.emod_eq_of_lt h0 hlt]

/-- C4 as stated fails at `textCapacity = 0`: on the failure path of
`demoEnv` the call stores the terminator at index `0`, an index not below the
capacity, so the buffer is not within the text contract for capacity `0`. -/
theorem C4_counterexample :
    (GetRemoteWindowInfo demoEnv demoHwnd demoBuffer 0).ret = false ∧
    demoBuffer 0 = 90 ∧
    (GetRemoteWindowInfo demoEnv demoHwnd demoBuffer 0).pszText 0 = 0 ∧
    ¬ TextWithin 0 demoBuffer (GetRemoteWindowInfo demoEnv demoHwnd demoBuffer 0).pszText := by
  refine ⟨by decide, by decide, by decide, ?_⟩
  rintro ⟨⟨k, hk, _⟩, _⟩
  omega

/-- C4, amended: for every `textCapacity` `n` from `1` to `INT_MAX`, on a
machine with pointers of at least 32 bits, and for every outcome of
`GetRemoteWindowInfo`, the buffer `pszText` afterwards holds a terminator at
an index below `n` and no element at an index `n` or above was changed. -/
theorem C4_text_within_capacity (env : Env) (hwnd : Nat) (pszText : Buffer) (n : Int)
    (hw : 32 ≤ env.ptrBits) (h1 : 1 ≤ n) (h2 : n ≤ 2147483647) :
    TextWithin n pszText (GetRemoteWindowInfo env hwnd pszText n).pszText := by
  unfold TextWithin
  cases hf : (runInjection env hwnd (setupInjData env hwnd)).1
  · rw [GetRemoteWindowInfo_of_false env hwnd pszText n hf]
    refine ⟨⟨0, by simpa using h1, by simp [setAt]⟩, ?_⟩
    intro i hi
    have hne : i ≠ 0 := by omega
    simp [setAt, hne]
  · rw [GetRemoteWindowInfo_of_true env hwnd pszText n hf]
    rw [toSizeT_of_nonneg env.ptrBits n hw (by omega) h2]
    obtain ⟨⟨k, hk, hk0⟩, hfr⟩ := StringCchCopy_within pszText
      (transferRecordAfter env hwnd).szText n.toNat (by omega)
      (by unfold STRSAFE_MAX_CCH; omega)
    refine ⟨⟨k, by omega, hk0⟩, ?_⟩
    intro i hi
    exact hfr i (by omega)

/-- C4, amended, at a successful same-process run with capacity `4` (three
letters and the terminator are stored, index `4` keeps its content) and at a
failed run with capacity `1`. -/
theorem C4_text_within_capacity_witness :
    TextWithin 4 demoBuffer
      (GetRemoteWindowInfo (sameProcess demoEnv demoProcess) demoHwnd demoBuffer 4).pszText ∧
    (GetRemoteWindowInfo (sameProcess demoEnv demoProcess) demoHwnd demoBuffer 4).ret = true ∧
    (GetRemoteWindowInfo (sameProcess demoEnv demoProcess) demoHwnd demoBuffer 4).pszText 2 = 65 ∧
    (GetRemoteWindowInfo (sameProcess demoEnv demoProcess) demoHwnd demoBuffer 4).pszText 3 = 0 ∧
    (GetRemoteWindowInfo (sameProcess demoEnv demoProcess) demoHwnd demoBuffer 4).pszText 4 = 90 ∧
    TextWithin 1 demoBuffer (GetRemoteWindowInfo demoEnv demoHwnd demoBuffer 1).pszText ∧
    (GetRemoteWindowInfo demoEnv demoHwnd demoBuffer 1).ret = false :=
  ⟨C4_text_within_capacity (sameProcess demoEnv demoProcess) demoHwnd demoBuffer 4
      (by decide) (by decide) (by decide),
    by decide, by decide, by decide, by decide,
    C4_text_within_capacity demoEnv demoHwnd demoBuffer 1 (by decide) (by decide) (by decide),
    by decide⟩

/-! ## The same-process round trip -/

/-- The same-process caller sets up the same transfer record. -/
theorem setupInjData_sameProcess (env : Env) (p : Process) (hwnd : Nat) :
    setupInjData (sameProcess env p) hwnd = setupInjData env hwnd := rfl

/-- The record that comes back in the same-process run is the one the payload
leaves. -/
theorem transferRecordAfter_sameProcess (env : Env) (p : Process) (hwnd : Nat) :
    transferRecordAfter (sameProcess env p) hwnd = (GetDataProc p (setupInjData env hwnd)).2 :=
  rfl

/-- On a source whose first terminator is at index `m`, the copy loop started
at `pos ≤ m` with `r` places left stops at `min m (pos + r)`, has stored the
source between `pos` and there, and has changed nothing else. -/
theorem copyLoop_string (src : Buffer) (m : Nat) (hnz : ∀ i, i < m → src i ≠ 0)
    (hz : src m = 0) :
    ∀ (r pos : Nat) (dest : Buffer), pos ≤ m →
      (copyLoop src r pos dest).1 = pos + r - min m (pos + r) ∧
      (copyLoop src r pos dest).2.1 = min m (pos + r) ∧
      ∀ i, (copyLoop src r pos dest).2.2 i =
        if pos ≤ i ∧ i < min m (pos + r) then src i else dest i := by
  intro r
  induction r with
  | zero =>
    intro pos dest hpos
    refine ⟨by simp [copyLoop]; omega, by simp [copyLoop]; omega, ?_⟩
    intro i
    have hno : ¬ (pos ≤ i ∧ i < min m (pos + 0)) := by omega
    simp only [copyLoop, hno, if_false]
  | succ r ih =>
    intro pos dest hpos
    by_cases hs : src pos = 0
    · have hpm : pos = m := by
        by_contra hne
        exact hnz pos (by omega) hs
      simp only [copyLoop, hs, if_true]
      refine ⟨by omega, by omega, ?_⟩
      intro i
      have hno : ¬ (pos ≤ i ∧ i < min m (pos + (r + 1))) := by omega
      simp only [hno, if_false]
    · have hpm : pos < m := by
        rcases Nat.lt_or_ge pos m with h | h
        · exact h
        · have : pos = m := by omega
          rw [this] at hs
          exact absurd hz hs
      simp only [copyLoop, hs, if_false]
      obtain ⟨h1, h2, h3⟩ := ih (pos + 1) (setAt dest pos (src pos)) (by omega)
      refine ⟨by omega, by omega, ?_⟩
      intro i
      rw [h3 i]
      by_cases hi : i = pos
      · have hno : ¬ (pos + 1 ≤ i ∧ i < min m (pos + 1 + r)) := by omega
        have hyes : pos ≤ i ∧ i < min m (pos + (r + 1)) := by omega
        rw [if_neg hno, if_pos hyes]
        simp [setAt, hi]
      · by_cases hin : pos + 1 ≤ i ∧ i < min m (pos + 1 + r)
        · have hyes : pos ≤ i ∧ i < min m (pos + (r + 1)) := by omega
          rw [if_pos hin, if_pos hyes]
        · have hno : ¬ (pos ≤ i ∧ i < min m (pos + (r + 1))) := by omega
          rw [if_neg hin, if_neg hno]
          simp [setAt, hi]

/-- On a source whose first terminator is at index `m`, `StringCchCopy` with
a count from `1` to `STRSAFE_MAX_CCH` stores the first `min m (c - 1)`
characters of the source and the terminator, and nothing else. -/
theorem StringCchCopy_string (dest src : Buffer) (m c : Nat)
    (hnz : ∀ i, i < m → src i ≠ 0) (hz : src m = 0) (h1 : 1 ≤ c) (h2 : c ≤ STRSAFE_MAX_CCH) :
    ∀ i, StringCchCopy dest c src i =
      if i < min m (c - 1) then src i else if i = min m (c - 1) then 0 else dest i := by
  obtain ⟨ha, hb, hc⟩ := copyLoop_string src m hnz hz c 0 dest (Nat.zero_le m)
  have hne : c ≠ 0 := by omega
  have hle : ¬ c > STRSAFE_MAX_CCH := by omega
  intro i
  unfold StringCchCopy
  simp only [hne, hle, if_false]
  by_cases hrem : (copyLoop src c 0 dest).1 = 0
  · have hk : (copyLoop src c 0 dest).2.1 - 1 = min m (c - 1) := by omega
    simp only [hrem, if_true, hk, setAt]
    by_cases hi : i = min m (c - 1)
    · have hno : ¬ i < min m (c - 1) := by omega
      simp only [hi, if_true, lt_self_iff_false, if_false]
    · simp only [hi, if_false]
      rw [hc i]
      by_cases hlt : i < min m (c - 1)
      · have hyes : 0 ≤ i ∧ i < min m (0 + c) := by omega
        simp only [hyes, and_self, if_true, hlt]
      · have hno : ¬ (0 ≤ i ∧ i < min m (0 + c)) := by omega
        simp only [hno, if_false, hlt]
  · have hk : (copyLoop src c 0 dest).2.1 = min m (c - 1) := by omega
    simp only [hrem, if_false, hk, setAt]
    by_cases hi : i = min m (c - 1)
    · simp only [hi, if_true, lt_self_iff_false, if_false]
    · simp only [hi, if_false]
      rw [hc i]
      by_cases hlt : i < min m (c - 1)
      · have hyes : 0 ≤ i ∧ i < min m (0 + c) := by omega
        simp only [hyes, and_self, if_true, hlt]
      · have hno : ¬ (0 ≤ i ∧ i < min m (0 + c)) := by omega
        simp only [hno, if_false, hlt]

/-- The characters a text request stores before the terminator are
characters of the text, so none of them is the terminator. -/
theorem windowTextRequest_nonzero (txt : WindowText) (cch : Nat) (buf : Buffer)
    (hc : cch ≠ 0) (i : Nat) (hi : i < min txt.chars.length (cch - 1)) :
    windowTextRequest txt cch buf i ≠ 0 := by
  have hlen : i < txt.chars.length := by omega
  unfold windowTextRequest
  simp only [hc, if_false, hi, if_true]
  rw [List.getD_eq_getElem txt.chars 0 hlen]
  exact txt.nonzero _ (List.getElem_mem hlen)

/-- A text request stores the terminator after the characters. -/
theorem windowTextRequest_terminator (txt : WindowText) (cch : Nat) (buf : Buffer)
    (hc : cch ≠ 0) :
    windowTextRequest txt cch buf (min txt.chars.length (cch - 1)) = 0 := by
  unfold windowTextRequest
  simp [hc]

/-- Copying out, with count `c`, the answer to a text request for 200
characters gives the answer to the text request for `c` characters, when `c`
is at most 200 or the text is shorter than 200 characters. -/
theorem StringCchCopy_windowTextRequest (txt : WindowText) (dest buf : Buffer) (c : Nat)
    (h2 : c ≤ STRSAFE_MAX_CCH) (hcap : c ≤ SZTEXT_LEN ∨ txt.chars.length < SZTEXT_LEN) :
    StringCchCopy dest c (windowTextRequest txt SZTEXT_LEN buf) = windowTextRequest txt c dest := by
  funext i
  by_cases hc0 : c = 0
  · simp [StringCchCopy, windowTextRequest, hc0]
  · have h200 : SZTEXT_LEN ≠ 0 := by decide
    rw [StringCchCopy_string dest (windowTextRequest txt SZTEXT_LEN buf)
      (min txt.chars.length (SZTEXT_LEN - 1)) c
      (fun j hj => windowTextRequest_nonzero txt SZTEXT_LEN buf h200 j hj)
      (windowTextRequest_terminator txt SZTEXT_LEN buf h200) (by omega) h2]
    have hmin : min (min txt.chars.length (SZTEXT_LEN - 1)) (c - 1)
        = min txt.chars.length (c - 1) := by
      unfold SZTEXT_LEN at hcap ⊢
      omega
    rw [hmin]
    by_cases hlt : i < min txt.chars.length (c - 1)
    · have hlt2 : i < min txt.chars.length (SZTEXT_LEN - 1) := by
        unfold SZTEXT_LEN at hcap ⊢
        omega
      simp only [windowTextRequest, hc0, h200, if_false, hlt, hlt2, if_true]
    · simp only [windowTextRequest, hc0, if_false, hlt]

/-- When the payload leaves `szText` without a terminator, the copy on the
success path reads on into `nTextSize`: the caller receives the 200
characters, the character `200` and the terminator. -/
theorem GetRemoteWindowInfo_unterminated_text :
    (GetRemoteWindowInfo (sameProcess demoEnv fullProcess) demoHwnd demoBuffer 256).ret = true ∧
    (GetRemoteWindowInfo (sameProcess demoEnv fullProcess) demoHwnd demoBuffer 256).pszText 199
      = 65 ∧
    (GetRemoteWindowInfo (sameProcess demoEnv fullProcess) demoHwnd demoBuffer 256).pszText 200
      = 200 ∧
    (GetRemoteWindowInfo (sameProcess demoEnv fullProcess) demoHwnd demoBuffer 256).pszText 201
      = 0 ∧
    (GetRemoteWindowInfo (sameProcess demoEnv fullProcess) demoHwnd demoBuffer 256).pszText 202
      = 90 := by
  refine ⟨by decide, by decide, by decide, by decide, by decide⟩

/-- C6 as stated fails, in four ways. (1) In `demoEnv` with `demoProcess` the
validity check passes and the same-process run succeeds, yet the class record
differs from the direct class-info query (its string pointers are null) and,
with a capacity of `256`, the text differs from the direct text request (it
ends after 199 characters, the direct request stores the 200th). (2) With a
window that does not answer the text request (`timeoutProcess`) the run
stores the terminator at `pszText[0]`, the direct request stores nothing.
(3) In `nullEnv`, whose null addresses pass the validity check, the payload
skips the procedure-address call and the text request, the direct queries do
not. (4) With the capacity `-1` the count is above `STRSAFE_MAX_CCH` and the
text, here the three letters of `shortProcess`, is not copied. -/
theorem C6_counterexample :
    (IsInjectionDataValid demoEnv (setupInjData demoEnv demoHwnd) = true ∧
      (GetRemoteWindowInfo (sameProcess demoEnv demoProcess) demoHwnd demoBuffer 256).ret
        = true ∧
      (directClassInfo demoEnv demoProcess demoHwnd).2.lpszClassName = 0x00500010 ∧
      (GetRemoteWindowInfo (sameProcess demoEnv demoProcess) demoHwnd demoBuffer
        256).pClass.lpszClassName = 0 ∧
      directText demoEnv demoProcess demoHwnd demoBuffer (toSizeT demoEnv.ptrBits 256) 199
        = 65 ∧
      (GetRemoteWindowInfo (sameProcess demoEnv demoProcess) demoHwnd demoBuffer 256).pszText
        199 = 0 ∧
      ¬ RoundTripsDirect demoEnv demoProcess demoHwnd demoBuffer 256) ∧
    ((GetRemoteWindowInfo (sameProcess demoEnv timeoutProcess) demoHwnd demoBuffer 16).ret
        = true ∧
      directText demoEnv timeoutProcess demoHwnd demoBuffer (toSizeT demoEnv.ptrBits 16) 0
        = 90 ∧
      (GetRemoteWindowInfo (sameProcess demoEnv timeoutProcess) demoHwnd demoBuffer 16).pszText
        0 = 0) ∧
    (IsInjectionDataValid nullEnv (setupInjData nullEnv demoHwnd) = true ∧
      (GetRemoteWindowInfo (sameProcess nullEnv demoProcess) demoHwnd demoBuffer 16).ret
        = true ∧
      directWndProc nullEnv demoProcess demoHwnd = 0x00401000 ∧
      (GetRemoteWindowInfo (sameProcess nullEnv demoProcess) demoHwnd demoBuffer 16).pProc
        = 0 ∧
      directText nullEnv demoProcess demoHwnd demoBuffer (toSizeT nullEnv.ptrBits 16) 0
        = 65 ∧
      (GetRemoteWindowInfo (sameProcess nullEnv demoProcess) demoHwnd demoBuffer 16).pszText
        0 = 0) ∧
    ((GetRemoteWindowInfo (sameProcess demoEnv shortProcess) demoHwnd demoBuffer (-1)).ret
        = true ∧
      directText demoEnv shortProcess demoHwnd demoBuffer (toSizeT demoEnv.ptrBits (-1)) 0
        = 65 ∧
      (GetRemoteWindowInfo (sameProcess demoEnv shortProcess) demoHwnd demoBuffer (-1)).pszText
        0 ≠ 65) := by
  have hc : (GetRemoteWindowInfo (sameProcess demoEnv demoProcess) demoHwnd demoBuffer
      256).pClass.lpszClassName = 0 := by decide
  refine ⟨⟨by decide, by decide, by decide, hc, by decide, by decide, ?_⟩,
    ⟨by decide, by decide, by decide⟩,
    ⟨by decide, by decide, by decide, by decide, by decide, by decide⟩,
    ⟨by decide, by decide, by decide⟩⟩
  intro h
  have h1 := congrArg WNDCLASSEX.lpszClassName h.1
  rw [hc] at h1
  revert h1
  decide

/-- C6, amended: with the injection primitive run as the payload on a copy of
the transfer record, for a window that answers the text request with its
text, with the procedure-address and text pointers of the record not null,
and with a count `textCapacity` (as the `size_t` handed on) that is at most
200, or at most `STRSAFE_MAX_CCH` for a text shorter than 200 characters, a
successful `GetRemoteWindowInfo` (so one whose validity check passed) returns
the result of the direct window-procedure query, the record of the direct
class-info query on the window's module handle and class atom with
`lpszClassName` and `lpszMenuName` set to null, and the text the direct
window-text request stores in `pszText` with `textCapacity` characters. -/
theorem C6_same_process_round_trip (env : Env) (p : Process) (hwnd : Nat) (txt : WindowText)
    (pszText : Buffer) (n : Int)
    (hsucc : (GetRemoteWindowInfo (sameProcess env p) hwnd pszText n).ret = true)
    (hproc : (setupInjData env hwnd).fnGetWindowLongPtr ≠ 0)
    (htext : (setupInjData env hwnd).fnSendMessageTimeout ≠ 0)
    (hreq : AnswersTextRequest env p hwnd txt)
    (hcap : toSizeT env.ptrBits n ≤ SZTEXT_LEN ∨
      (toSizeT env.ptrBits n ≤ STRSAFE_MAX_CCH ∧ txt.chars.length < SZTEXT_LEN)) :
    (GetRemoteWindowInfo (sameProcess env p) hwnd pszText n).pProc = directWndProc env p hwnd ∧
    (GetRemoteWindowInfo (sameProcess env p) hwnd pszText n).pClass =
      { (directClassInfo env p hwnd).2 with lpszClassName := 0, lpszMenuName := 0 } ∧
    (GetRemoteWindowInfo (sameProcess env p) hwnd pszText n).pszText =
      directText env p hwnd pszText (toSizeT env.ptrBits n) := by
  have hrun : (runInjection (sameProcess env p) hwnd
      (setupInjData (sameProcess env p) hwnd)).1 = true := by
    rw [← GetRemoteWindowInfo_ret (sameProcess env p) hwnd pszText n]; exact hsucc
  have hfRet : (GetDataProc p (setupInjData env hwnd)).1 ≠ 0 := by
    rw [runInjection_fst] at hrun
    simp only [Bool.and_eq_true, decide_eq_true_eq] at hrun
    exact hrun.2
  have hcls : (setupInjData env hwnd).fnGetClassInfoEx ≠ 0 := by
    intro h0
    apply hfRet
    rw [GetDataProc_fst]
    simp [h0]
  have hmax : toSizeT env.ptrBits n ≤ STRSAFE_MAX_CCH := by
    rcases hcap with h | h
    · unfold SZTEXT_LEN at h
      unfold STRSAFE_MAX_CCH
      omega
    · exact h.1
  have hcap2 : toSizeT env.ptrBits n ≤ SZTEXT_LEN ∨ txt.chars.length < SZTEXT_LEN := by
    rcases hcap with h | h
    · exact Or.inl h
    · exact Or.inr h.2
  have hsz : (GetDataProc p (setupInjData env hwnd)).2.szText =
      windowTextRequest txt SZTEXT_LEN (setAt (setupInjData env hwnd).szText 0 0) := by
    rw [GetDataProc_szText, if_pos htext]
    exact hreq SZTEXT_LEN (setAt (setupInjData env hwnd).szText 0 0)
  rw [GetRemoteWindowInfo_of_true (sameProcess env p) hwnd pszText n hrun,
    transferRecordAfter_sameProcess, GetDataProc_wndproc, GetDataProc_wcOutput,
    hsz, if_pos hproc, if_pos hcls]
  refine ⟨rfl, rfl, ?_⟩
  show StringCchCopy pszText (toSizeT env.ptrBits n)
      (windowTextRequest txt SZTEXT_LEN (setAt (setupInjData env hwnd).szText 0 0)) = _
  rw [StringCchCopy_windowTextRequest txt pszText _ (toSizeT env.ptrBits n) hmax hcap2]
  exact (hreq (toSizeT env.ptrBits n) pszText).symm

/-- C6, amended, at `demoEnv` with `demoProcess`, whose window answers with
`demoText`, and a capacity of `16`: the procedure address, the class record
and the first 15 letters of the text with the terminator; and with
`shortProcess` and a capacity of `256`: the three letters and the
terminator. -/
theorem C6_same_process_round_trip_witness :
    (GetRemoteWindowInfo (sameProcess demoEnv demoProcess) demoHwnd demoBuffer 16).ret = true ∧
    AnswersTextRequest demoEnv demoProcess demoHwnd demoText ∧
    toSizeT demoEnv.ptrBits 16 ≤ SZTEXT_LEN ∧
    (GetRemoteWindowInfo (sameProcess demoEnv demoProcess) demoHwnd demoBuffer 16).pProc
      = 0x00401000 ∧
    (GetRemoteWindowInfo (sameProcess demoEnv demoProcess) demoHwnd demoBuffer 16).pClass
      = { (directClassInfo demoEnv demoProcess demoHwnd).2 with
          lpszClassName := 0, lpszMenuName := 0 } ∧
    (GetRemoteWindowInfo (sameProcess demoEnv demoProcess) demoHwnd demoBuffer 16).pszText
      = directText demoEnv demoProcess demoHwnd demoBuffer (toSizeT demoEnv.ptrBits 16) ∧
    directText demoEnv demoProcess demoHwnd demoBuffer (toSizeT demoEnv.ptrBits 16) 14 = 65 ∧
    directText demoEnv demoProcess demoHwnd demoBuffer (toSizeT demoEnv.ptrBits 16) 15 = 0 ∧
    (GetRemoteWindowInfo (sameProcess demoEnv shortProcess) demoHwnd demoBuffer 256).pszText
      = directText demoEnv shortProcess demoHwnd demoBuffer (toSizeT demoEnv.ptrBits 256) ∧
    directText demoEnv shortProcess demoHwnd demoBuffer (toSizeT demoEnv.ptrBits 256) 2 = 65 ∧
    directText demoEnv shortProcess demoHwnd demoBuffer (toSizeT demoEnv.ptrBits 256) 3 = 0 :=
  have h := C6_same_process_round_trip demoEnv demoProcess demoHwnd demoText demoBuffer 16
    (by decide) (by decide) (by decide) (fun _ _ => rfl) (Or.inl (by decide))
  have g := C6_same_process_round_trip demoEnv shortProcess demoHwnd shortText demoBuffer 256
    (by decide) (by decide) (by decide) (fun _ _ => rfl) (Or.inr ⟨by decide, by decide⟩)
  ⟨by decide, fun _ _ => rfl, by decide, h.1.trans (by decide), h.2.1, h.2.2,
    by decide, by decide, g.2.2, by decide, by decide⟩

end WinSpy
